import Mathlib

/-!
Verification development for the kebisafe media pipeline.

Shallow embedding of the media ingestion and lifecycle code:
- `src/entity.rs` (the `Media` record),
- `src/action/database.rs` (identifier allocation, list/update/delete queries),
- `src/action/media.rs` (content validation, thumbnail derivation),
- `src/web/endpoint/media.rs` (the upload/update/delete orchestration).

External collaborators (Postgres via sqlx, the `image` and `rand` crates, the
filesystem) are modelled at their interface: store responses are explicit
tagged values, filesystem operations are recorded in an effect trace, and the
`image` crate operations used by the code (`crop_imm`, `resize`) are embedded
as dimension-level functions following the documented behaviour of the crates.
-/

namespace Kebisafe

/-- A media record, field for field after `Media` in `src/entity.rs`.
`time::OffsetDateTime` is modelled by its total order, as `Int`;
the `i32` columns are within `i32` range in the database, their arithmetic is
never exercised here, so they are carried as `Int`. -/
structure Media where
  hash_id : String
  extension : String
  has_thumbnail : Bool
  is_private : Bool
  width : Int
  height : Int
  filesize : Int
  comment : Option String
  uploaded : Int
  deriving DecidableEq

/-- `HASH_CHARS` (database.rs:13): the 36-symbol lowercase alphanumeric
alphabet, built exactly as the source builds it. -/
def HASH_CHARS : List Char := "0123456789abcdefghijklmnopqrstuvwxyz".toList

/-- `HASH_MIN_LENGTH` (database.rs:14). -/
def HASH_MIN_LENGTH : Nat := 6

/-- `MAX_RETRY` (database.rs:15). -/
def MAX_RETRY : Nat := 5

/-- A candidate identifier as produced at database.rs:58-59:
`HASH_CHARS.choose_multiple(&mut thread_rng(), length).collect()`.
In the `rand` crate, `choose_multiple` samples `amount` elements without
repetition, i.e. the chosen positions are pairwise distinct; `draw` is that
list of chosen positions in draw order. -/
def hash_candidate (draw : List (Fin HASH_CHARS.length)) : List Char :=
  draw.map fun j => HASH_CHARS.get j

/-- The error channel of a store call, after `sqlx::Error`: either a database
error carrying an optional SQLSTATE code (`DatabaseError::code()`), or any
other sqlx error. -/
inductive SqlxError where
  | database (code : Option String)
  | other
  deriving DecidableEq

/-- Result channel of `reserve_media_record`: a propagated store error, or the
`anyhow!("Failed to create record")` failure after the retry budget is spent. -/
inductive ReserveError where
  | store (e : SqlxError)
  | allocationExhausted
  deriving DecidableEq

/-- `is_conflicting` (database.rs:127-135): a database error counts as a
conflict exactly when its SQLSTATE code starts with `"23"`.
The Rust method `str::starts_with` is rendered as the prefix test on the character
lists of the two strings. -/
def is_conflicting (code : Option String) : Bool :=
  match code with
  | some sqlstate => "23".toList.isPrefixOf sqlstate.toList
  | none => false

/-- The retry loop of `reserve_media_record` (database.rs:54-95).
`attempts L` is the response of the store to the INSERT of a candidate of length
`L`; `fuel` is the number of loop iterations left and `i` the current
iteration index, so the current candidate length is `HASH_MIN_LENGTH + i`
(database.rs:55). `Ok` returns the persisted row, a conflicting database
error continues the loop, any other error is returned, and running out of
iterations yields the exhaustion error (database.rs:88-95). -/
def reserve_from (attempts : Nat → Except SqlxError Media) :
    Nat → Nat → Except ReserveError Media
  | 0, _ => .error .allocationExhausted
  | fuel + 1, i =>
    match attempts (HASH_MIN_LENGTH + i) with
    | .ok media => .ok media
    | .error (.database code) =>
      if is_conflicting code then reserve_from attempts fuel (i + 1)
      else .error (.store (.database code))
    | .error .other => .error (.store .other)

/-- `reserve_media_record` (database.rs:46-96), abstracted over the responses
of the store: the loop `for i in 0..MAX_RETRY` starts at iteration 0 with the
full budget. -/
def reserve_media_record (attempts : Nat → Except SqlxError Media) :
    Except ReserveError Media :=
  reserve_from attempts MAX_RETRY 0

/-- A sample persisted row, used to instantiate theorems on concrete inputs. -/
def mediaA : Media :=
  { hash_id := "a1b2c3", extension := "png", has_thumbnail := true,
    is_private := false, width := 640, height := 480, filesize := 1000,
    comment := none, uploaded := 5 }

/-- The retry loop only looks at the responses for lengths in the window
`[HASH_MIN_LENGTH + i, HASH_MIN_LENGTH + i + fuel)`. -/
theorem reserve_from_congr (f g : Nat → Except SqlxError Media) :
    ∀ fuel i,
      (∀ L, HASH_MIN_LENGTH + i ≤ L → L < HASH_MIN_LENGTH + i + fuel → f L = g L) →
      reserve_from f fuel i = reserve_from g fuel i := by
  intro fuel
  induction fuel with
  | zero => intro i _; rfl
  | succ n ih =>
    intro i h
    have h0 : f (HASH_MIN_LENGTH + i) = g (HASH_MIN_LENGTH + i) :=
      h _ (Nat.le_refl _) (by omega)
    simp only [reserve_from, h0]
    cases g (HASH_MIN_LENGTH + i) with
    | ok m => rfl
    | error e =>
      cases e with
      | other => rfl
      | database code =>
        by_cases hc : is_conflicting code = true
        · simp only [hc, if_true]
          exact ih (i + 1) fun L h1 h2 => h L (by omega) (by omega)
        · simp only [eq_false_of_ne_true hc, Bool.false_eq_true, if_false]

/-- Skipping a run of conflicting attempts: if the first `k` candidate lengths
in the window all draw a conflicting database error, the loop reaches
iteration `i + k` with `k` fewer iterations of budget. -/
theorem reserve_from_skip (attempts : Nat → Except SqlxError Media) :
    ∀ k fuel i, k ≤ fuel →
      (∀ j, j < k → ∃ code, attempts (HASH_MIN_LENGTH + (i + j)) =
          .error (.database code) ∧ is_conflicting code = true) →
      reserve_from attempts fuel i = reserve_from attempts (fuel - k) (i + k) := by
  intro k
  induction k with
  | zero => intro fuel i _ _; rfl
  | succ n ih =>
    intro fuel i hk hconf
    obtain ⟨fuel0, rfl⟩ : ∃ fuel0, fuel = fuel0 + 1 :=
      ⟨fuel - 1, by omega⟩
    obtain ⟨code, hcode, hcc⟩ := hconf 0 (Nat.succ_pos n)
    rw [Nat.add_zero] at hcode
    have step : reserve_from attempts (fuel0 + 1) i = reserve_from attempts fuel0 (i + 1) := by
      simp only [reserve_from, hcode, hcc, if_true]
    rw [step, ih fuel0 (i + 1) (by omega)
      (fun j hj => by
        obtain ⟨c, hc1, hc2⟩ := hconf (j + 1) (by omega)
        exact ⟨c, by rw [← hc1]; ring_nf, hc2⟩)]
    congr 1
    · omega
    · omega

/-- Claim C1: the allocator attempts at most `MAX_RETRY = 5` insertions,
starting at candidate length `HASH_MIN_LENGTH = 6` and adding one per retry
(so it only ever consults the store at lengths 6..10); it continues the loop
exactly on a conflicting database error, returns the persisted record on the
first successful insert, propagates any other store error immediately, and
fails with the exhaustion error once all attempts conflict. -/
theorem reserve_media_record_spec (attempts : Nat → Except SqlxError Media) :
    (∀ f g : Nat → Except SqlxError Media,
      (∀ L, HASH_MIN_LENGTH ≤ L → L < HASH_MIN_LENGTH + MAX_RETRY → f L = g L) →
      reserve_media_record f = reserve_media_record g) ∧
    (∀ k, k < MAX_RETRY →
      (∀ j, j < k → ∃ code, attempts (HASH_MIN_LENGTH + j) =
          .error (.database code) ∧ is_conflicting code = true) →
      (∀ m, attempts (HASH_MIN_LENGTH + k) = .ok m →
        reserve_media_record attempts = .ok m) ∧
      (∀ code, attempts (HASH_MIN_LENGTH + k) = .error (.database code) →
        is_conflicting code = false →
        reserve_media_record attempts = .error (.store (.database code))) ∧
      (attempts (HASH_MIN_LENGTH + k) = .error .other →
        reserve_media_record attempts = .error (.store .other))) ∧
    ((∀ j, j < MAX_RETRY → ∃ code, attempts (HASH_MIN_LENGTH + j) =
        .error (.database code) ∧ is_conflicting code = true) →
      reserve_media_record attempts = .error .allocationExhausted) := by
  refine ⟨?_, ?_, ?_⟩
  · intro f g h
    exact reserve_from_congr f g MAX_RETRY 0 fun L h1 h2 => h L (by omega) (by omega)
  · intro k hk hconf
    have hskip : reserve_media_record attempts =
        reserve_from attempts (MAX_RETRY - k) k := by
      have := reserve_from_skip attempts k MAX_RETRY 0 (by omega)
        (fun j hj => by simpa using hconf j hj)
      simpa [reserve_media_record] using this
    obtain ⟨rest, hrest⟩ : ∃ rest, MAX_RETRY - k = rest + 1 :=
      ⟨MAX_RETRY - k - 1, by omega⟩
    refine ⟨?_, ?_, ?_⟩
    · intro m hm
      rw [hskip, hrest]
      simp only [reserve_from, hm]
    · intro code hcode hnc
      rw [hskip, hrest]
      simp only [reserve_from, hcode, hnc, Bool.false_eq_true, if_false]
    · intro h
      rw [hskip, hrest]
      simp only [reserve_from, h]
  · intro hconf
    have hskip : reserve_media_record attempts =
        reserve_from attempts (MAX_RETRY - MAX_RETRY) MAX_RETRY := by
      have := reserve_from_skip attempts MAX_RETRY MAX_RETRY 0 (Nat.le_refl _)
        (fun j hj => by simpa using hconf j hj)
      simpa [reserve_media_record] using this
    rw [hskip]
    rfl

/-- Store responses for the C1 witness: length 6 conflicts with a unique
violation (SQLSTATE 23505), length 7 succeeds. -/
def attemptsW : Nat → Except SqlxError Media := fun L =>
  if L = 6 then .error (.database (some "23505"))
  else if L = 7 then .ok mediaA
  else .error .other

/-- Witness for C1 at concrete store responses: one 23505 conflict at length
6, then success at length 7, returns the persisted record. -/
theorem reserve_media_record_spec_witness :
    reserve_media_record attemptsW = .ok mediaA := by
  refine ((reserve_media_record_spec attemptsW).2.1 1 (by decide) ?_).1 mediaA rfl
  intro j hj
  have hj0 : j = 0 := by omega
  subst hj0
  exact ⟨some "23505", rfl, rfl⟩

/-- Store responses in which the insert at length 6 fails with SQLSTATE
`23502` — a NOT NULL constraint violation, a store error that is not a
uniqueness-constraint violation (uniqueness violations are `23505`) — and the
insert at length 7 succeeds. -/
def attempts23502 : Nat → Except SqlxError Media := fun L =>
  if L = 6 then .error (.database (some "23502"))
  else if L = 7 then .ok mediaA
  else .error .other

/-- Counterexample for C1 as stated: `is_conflicting` treats every SQLSTATE
of class 23 as a retryable conflict, so a `23502` NOT NULL violation — not a
uniqueness violation — is retried (and here allocation then succeeds at
length 7) instead of being propagated immediately. -/
theorem reserve_media_record_retry_class23_counterexample :
    is_conflicting (some "23502") = true ∧
    reserve_media_record attempts23502 = .ok mediaA ∧
    reserve_media_record attempts23502 ≠
      .error (.store (.database (some "23502"))) := by
  refine ⟨rfl, rfl, ?_⟩
  intro h
  rw [show reserve_media_record attempts23502 = .ok mediaA from rfl] at h
  exact Except.noConfusion h

/-- Claim C2: every candidate identifier is formed by drawing pairwise
distinct positions of the 36-symbol alphabet `HASH_CHARS` in draw order, at
length `HASH_MIN_LENGTH + i` for a retry index `i < MAX_RETRY`; hence its
length is between 6 and 10, it has no repeated character, and each character
belongs to the alphabet. -/
theorem hash_candidate_spec (i : Nat) (draw : List (Fin HASH_CHARS.length))
    (hi : i < MAX_RETRY) (hnd : draw.Nodup)
    (hlen : draw.length = HASH_MIN_LENGTH + i) :
    HASH_CHARS.length = 36 ∧
    6 ≤ (hash_candidate draw).length ∧ (hash_candidate draw).length ≤ 10 ∧
    (hash_candidate draw).Nodup ∧
    ∀ c ∈ hash_candidate draw, c ∈ HASH_CHARS := by
  have halpha : HASH_CHARS.Nodup := by decide
  have hlen36 : HASH_CHARS.length = 36 := by decide
  have hlenc : (hash_candidate draw).length = HASH_MIN_LENGTH + i := by
    simpa [hash_candidate] using hlen
  refine ⟨hlen36, ?_, ?_, ?_, ?_⟩
  · rw [hlenc]
    have : HASH_MIN_LENGTH = 6 := rfl
    omega
  · rw [hlenc]
    have h5 : MAX_RETRY = 5 := rfl
    have h6 : HASH_MIN_LENGTH = 6 := rfl
    omega
  · exact hnd.map (List.nodup_iff_injective_get.mp halpha)
  · intro c hc
    obtain ⟨j, _, rfl⟩ := List.mem_map.mp hc
    exact HASH_CHARS.get_mem j.1 j.2

/-- Witness for C2: the concrete draw of positions 0,1,2,3,4,5 at retry index
0 yields the candidate "012345", of length 6, with pairwise distinct
characters from the alphabet. -/
theorem hash_candidate_spec_witness :
    6 ≤ (hash_candidate [⟨0, by decide⟩, ⟨1, by decide⟩, ⟨2, by decide⟩,
        ⟨3, by decide⟩, ⟨4, by decide⟩, ⟨5, by decide⟩]).length ∧
    (hash_candidate [⟨0, by decide⟩, ⟨1, by decide⟩, ⟨2, by decide⟩,
        ⟨3, by decide⟩, ⟨4, by decide⟩, ⟨5, by decide⟩]).length ≤ 10 ∧
    (hash_candidate [⟨0, by decide⟩, ⟨1, by decide⟩, ⟨2, by decide⟩,
        ⟨3, by decide⟩, ⟨4, by decide⟩, ⟨5, by decide⟩]).Nodup := by
  have h := hash_candidate_spec 0
    [⟨0, by decide⟩, ⟨1, by decide⟩, ⟨2, by decide⟩,
     ⟨3, by decide⟩, ⟨4, by decide⟩, ⟨5, by decide⟩]
    (by decide) (by decide) (by decide)
  exact ⟨h.2.1, h.2.2.1, h.2.2.2.1⟩

/-- An in-memory image, tracked by its dimensions (`GenericImageView::dimensions`).
The thumbnail claims are claims about output dimensions, so pixel contents are
not modelled. -/
structure Img where
  width : Nat
  height : Nat
  deriving DecidableEq

/-- `THUMBNAIL_WIDTH` (media.rs:16). -/
def THUMBNAIL_WIDTH : Nat := 320

/-- `THUMBNAIL_HEIGHT` (media.rs:17). -/
def THUMBNAIL_HEIGHT : Nat := 180

/-- `u32::MAX`. -/
def U32_MAX : Nat := 4294967295

/-- Dimension behaviour of `imageops::crop_imm` from the `image` crate: the
requested rectangle is clipped to the image bounds, so the cut-out measures
`min w (W - min x W)` by `min h (H - min y H)` for an image of size `W × H`. -/
def crop_imm_dims (img : Img) (x y w h : Nat) : Img :=
  { width := min w (img.width - min x img.width),
    height := min h (img.height - min y img.height) }

/-- The constraint choice of `resize_dimensions` in the `image` crate: with
`fill = false` the width is the binding side iff `nwidth * height ≤ width * nheight`. -/
def resize_use_width (width height nwidth nheight : Nat) (fill : Bool) : Bool :=
  if fill then decide (width * nheight < nwidth * height)
  else decide (nwidth * height ≤ width * nheight)

/-- Dimension behaviour of `DynamicImage::resize` from the `image` crate:
aspect-ratio-preserving scaling to the maximum size that fits within the
`nwidth × nheight` bounds (`resize_dimensions` of the crate with `fill = false`),
with the scaled free dimension computed by integer division, clamped below by
1 and above by `u32::MAX`. -/
def resize_dimensions (width height nwidth nheight : Nat) (fill : Bool) : Nat × Nat :=
  if resize_use_width width height nwidth nheight fill then
    let inter := max 1 (height * nwidth / width)
    if inter ≤ U32_MAX then (nwidth, inter)
    else (nwidth * U32_MAX / inter, U32_MAX)
  else
    let inter := max 1 (width * nheight / height)
    if inter ≤ U32_MAX then (inter, nheight)
    else (U32_MAX, nheight * U32_MAX / inter)

/-- `DynamicImage::resize` at dimension level. -/
def resize_dims (img : Img) (nwidth nheight : Nat) : Img :=
  { width := (resize_dimensions img.width img.height nwidth nheight false).1,
    height := (resize_dimensions img.width img.height nwidth nheight false).2 }

/-- `create_thumbnail` (media.rs:55-76) at dimension level: `None` when the
original fits in the box; vertical center-crop when only the height
overflows; horizontal center-crop when only the width overflows; aspect-fit
`resize` when both overflow. -/
def create_thumbnail (img : Img) : Option Img :=
  if img.width ≤ THUMBNAIL_WIDTH ∧ img.height ≤ THUMBNAIL_HEIGHT then
    none
  else if img.width ≤ THUMBNAIL_WIDTH then
    let top_half := (img.height - THUMBNAIL_HEIGHT) / 2
    some (crop_imm_dims img 0 top_half img.width THUMBNAIL_HEIGHT)
  else if img.height ≤ THUMBNAIL_HEIGHT then
    let left_half := (img.width - THUMBNAIL_WIDTH) / 2
    some (crop_imm_dims img left_half 0 THUMBNAIL_WIDTH img.height)
  else
    some (resize_dims img THUMBNAIL_WIDTH THUMBNAIL_HEIGHT)

/-- Both dimensions fit: no thumbnail. -/
theorem create_thumbnail_fit (w h : Nat) (hw : w ≤ 320) (hh : h ≤ 180) :
    create_thumbnail ⟨w, h⟩ = none := by
  have hb : w ≤ THUMBNAIL_WIDTH ∧ h ≤ THUMBNAIL_HEIGHT := ⟨hw, hh⟩
  simp [create_thumbnail, hb]

/-- Only the height overflows: vertical center-crop to full width × 180. -/
theorem create_thumbnail_tall (w h : Nat) (hw : w ≤ 320) (hh : 180 < h) :
    create_thumbnail ⟨w, h⟩ = some ⟨w, 180⟩ := by
  simp only [create_thumbnail, crop_imm_dims, THUMBNAIL_WIDTH, THUMBNAIL_HEIGHT]
  split_ifs with h1
  · exact absurd h1.2 (by omega)
  · simp only [Option.some.injEq, Img.mk.injEq]
    constructor <;> omega

/-- Only the width overflows: horizontal center-crop to 320 × full height. -/
theorem create_thumbnail_wide (w h : Nat) (hw : 320 < w) (hh : h ≤ 180) :
    create_thumbnail ⟨w, h⟩ = some ⟨320, h⟩ := by
  simp only [create_thumbnail, crop_imm_dims, THUMBNAIL_WIDTH, THUMBNAIL_HEIGHT]
  split_ifs with h1 h2
  · exact absurd h1.1 (by omega)
  · exact absurd h2 (by omega)
  · simp only [Option.some.injEq, Img.mk.injEq]
    constructor <;> omega

/-- Both dimensions overflow: the aspect-fit resize stays within the box and
pins one side to its bound. -/
theorem create_thumbnail_scaled (w h : Nat) (hw : 320 < w) (hh : 180 < h) :
    ∃ w2 h2, create_thumbnail ⟨w, h⟩ = some ⟨w2, h2⟩ ∧
      w2 ≤ 320 ∧ h2 ≤ 180 ∧ (w2 = 320 ∨ h2 = 180) := by
  have hM : U32_MAX = 4294967295 := rfl
  simp only [create_thumbnail, resize_dims, THUMBNAIL_WIDTH, THUMBNAIL_HEIGHT]
  split_ifs with h1 h2 h3
  · exact absurd h1.1 (by omega)
  · exact absurd h2 (by omega)
  · exact absurd hh (by omega)
  · by_cases huw : 320 * h ≤ w * 180
    · have hcond : resize_use_width w h 320 180 false = true := by
        simp only [resize_use_width]
        simp only [Bool.false_eq_true, if_false, decide_eq_true_eq]
        omega
      have hdiv : h * 320 / w ≤ 180 := by
        calc h * 320 / w ≤ w * 180 / w := Nat.div_le_div_right (by omega)
          _ = 180 := by rw [mul_comm]; exact Nat.mul_div_cancel _ (by omega)
      have hu32 : max 1 (h * 320 / w) ≤ U32_MAX := by omega
      refine ⟨320, max 1 (h * 320 / w), ?_, le_refl _, by omega, Or.inl rfl⟩
      simp only [resize_dimensions, hcond, if_true]
      rw [if_pos hu32]
    · have hcond : resize_use_width w h 320 180 false = false := by
        simp only [resize_use_width]
        simp only [Bool.false_eq_true, if_false, decide_eq_false_iff_not]
        omega
      have hdiv : w * 180 / h < 320 := by
        rw [Nat.div_lt_iff_lt_mul (by omega)]
        omega
      have hu32 : max 1 (w * 180 / h) ≤ U32_MAX := by omega
      refine ⟨max 1 (w * 180 / h), 180, ?_, by omega, le_refl _, Or.inr rfl⟩
      simp only [resize_dimensions, hcond, Bool.false_eq_true, if_false]
      rw [if_pos hu32]

/-- Counterexample for C3 as stated: a 400×1000 input overflows the box in
both dimensions, yet the thumbnail is 72×180 — `DynamicImage::resize`
preserves the aspect ratio and fits within the box, it does not resample to
exactly 320×180. -/
theorem create_thumbnail_both_overflow_counterexample :
    320 < (400 : Nat) ∧ 180 < (1000 : Nat) ∧
    create_thumbnail { width := 400, height := 1000 } =
      some { width := 72, height := 180 } ∧
    create_thumbnail { width := 400, height := 1000 } ≠
      some { width := 320, height := 180 } := by decide

/-- Claim C3 (amended): the 320×180 thumbnail deriver returns `None` iff both
dimensions fit; a height-only overflow yields a vertical center-crop of
exactly width × 180; a width-only overflow yields a horizontal center-crop of
exactly 320 × height; and when both overflow it yields an aspect-ratio
preserving downscale that fits within the box with at least one dimension
pinned to its bound (320×180 exactly only when the aspect ratio matches, as
for 1600×900). -/
theorem create_thumbnail_spec (img : Img) :
    (create_thumbnail img = none ↔ img.width ≤ 320 ∧ img.height ≤ 180) ∧
    (img.width ≤ 320 → 180 < img.height →
      create_thumbnail img = some { width := img.width, height := 180 }) ∧
    (320 < img.width → img.height ≤ 180 →
      create_thumbnail img = some { width := 320, height := img.height }) ∧
    (320 < img.width → 180 < img.height →
      ∃ w2 h2, create_thumbnail img = some { width := w2, height := h2 } ∧
        w2 ≤ 320 ∧ h2 ≤ 180 ∧ (w2 = 320 ∨ h2 = 180)) ∧
    create_thumbnail { width := 320, height := 180 } = none ∧
    create_thumbnail { width := 200, height := 800 } =
      some { width := 200, height := 180 } ∧
    create_thumbnail { width := 800, height := 100 } =
      some { width := 320, height := 100 } ∧
    create_thumbnail { width := 1600, height := 900 } =
      some { width := 320, height := 180 } := by
  obtain ⟨w, h⟩ := img
  refine ⟨?_, fun hw hh => create_thumbnail_tall w h hw hh,
    fun hw hh => create_thumbnail_wide w h hw hh,
    fun hw hh => create_thumbnail_scaled w h hw hh,
    by decide, by decide, by decide, by decide⟩
  constructor
  · intro hn
    by_contra hc
    rcases Nat.lt_or_ge 320 w with hw | hw
    · rcases Nat.lt_or_ge 180 h with hh | hh
      · obtain ⟨w2, h2, he, -⟩ := create_thumbnail_scaled w h hw hh
        rw [hn] at he
        exact Option.noConfusion he
      · have he := create_thumbnail_wide w h hw hh
        rw [hn] at he
        exact Option.noConfusion he
    · rcases Nat.lt_or_ge 180 h with hh | hh
      · have he := create_thumbnail_tall w h hw hh
        rw [hn] at he
        exact Option.noConfusion he
      · exact hc ⟨hw, hh⟩
  · intro hc
    exact create_thumbnail_fit w h hc.1 hc.2

/-- Witness for C3 (amended) at the concrete inputs named by the spec. -/
theorem create_thumbnail_spec_witness :
    create_thumbnail { width := 200, height := 800 } =
      some { width := 200, height := 180 } ∧
    create_thumbnail { width := 800, height := 100 } =
      some { width := 320, height := 100 } ∧
    (∃ w2 h2, create_thumbnail { width := 400, height := 1000 } =
        some { width := w2, height := h2 } ∧
      w2 ≤ 320 ∧ h2 ≤ 180 ∧ (w2 = 320 ∨ h2 = 180)) :=
  ⟨(create_thumbnail_spec ⟨200, 800⟩).2.1 (by decide) (by decide),
   (create_thumbnail_spec ⟨800, 100⟩).2.2.1 (by decide) (by decide),
   (create_thumbnail_spec ⟨400, 1000⟩).2.2.2.1 (by decide) (by decide)⟩

/-- Claim C10: the center-crop offset subtractions are evaluated only in
branches where the respective dimension strictly exceeds the box dimension,
so the `u32` subtractions cannot underflow (the truncated subtraction
round-trips) and the computed crop rectangle lies inside the source image. -/
theorem create_thumbnail_crop_offsets_safe (img : Img) :
    (¬(img.width ≤ 320 ∧ img.height ≤ 180) → img.width ≤ 320 →
      180 < img.height ∧
      img.height - 180 + 180 = img.height ∧
      (img.height - 180) / 2 + 180 ≤ img.height ∧
      0 + img.width ≤ img.width ∧
      create_thumbnail img = some { width := img.width, height := 180 }) ∧
    (¬(img.width ≤ 320 ∧ img.height ≤ 180) → 320 < img.width →
      img.height ≤ 180 →
      img.width - 320 + 320 = img.width ∧
      (img.width - 320) / 2 + 320 ≤ img.width ∧
      0 + img.height ≤ img.height ∧
      create_thumbnail img = some { width := 320, height := img.height }) := by
  obtain ⟨w, h⟩ := img
  dsimp only
  constructor
  · intro hb hw
    have hh : 180 < h := by
      by_contra hc
      exact hb ⟨hw, by omega⟩
    exact ⟨hh, by omega, by omega, by omega, create_thumbnail_tall w h hw hh⟩
  · intro hb hw hh
    exact ⟨by omega, by omega, by omega, create_thumbnail_wide w h hw hh⟩

/-- Witness for C10 at 100×800 (tall branch) and 800×100 (wide branch). -/
theorem create_thumbnail_crop_offsets_safe_witness :
    (180 < (800 : Nat) ∧
      (800 : Nat) - 180 + 180 = 800 ∧
      ((800 : Nat) - 180) / 2 + 180 ≤ 800 ∧
      0 + (100 : Nat) ≤ 100 ∧
      create_thumbnail { width := 100, height := 800 } =
        some { width := 100, height := 180 }) ∧
    ((800 : Nat) - 320 + 320 = 800 ∧
      ((800 : Nat) - 320) / 2 + 320 ≤ 800 ∧
      0 + (100 : Nat) ≤ 100 ∧
      create_thumbnail { width := 800, height := 100 } =
        some { width := 320, height := 100 }) :=
  ⟨(create_thumbnail_crop_offsets_safe ⟨100, 800⟩).1 (by decide) (by decide),
   (create_thumbnail_crop_offsets_safe ⟨800, 100⟩).2 (by decide) (by decide) (by decide)⟩

/-- The image formats distinguished by `image::ImageFormat`; the formats not
named in `ALLOWED_TYPES` are collapsed into a tagged constructor. -/
inductive ImageFormat where
  | png
  | jpeg
  | gif
  | otherFormat (tag : Nat)
  deriving DecidableEq

/-- `ALLOWED_TYPES` (media.rs:10-14): the static allow-list from MIME essence
to expected format. -/
def ALLOWED_TYPES : List (String × ImageFormat) :=
  [("image/png", ImageFormat.png),
   ("image/jpeg", ImageFormat.jpeg),
   ("image/gif", ImageFormat.gif)]

/-- The failure channel of `validate_image_file`, one constructor per exit
(media.rs:27-51): `noFileExt` and `noMime` are the two
`bail!("Cannot determine file type")` sites, `unsupportedFileType` is
`bail!("Unsupported file type")`, `unsupportedImageType` is
`bail!("Unsupported image type")` (the sniffed/declared mismatch), and
`loadFailed` is a decoding error propagated from
`image::load_from_memory_with_format`. -/
inductive ValidateError where
  | noFileExt
  | noMime
  | unsupportedFileType
  | unsupportedImageType
  | loadFailed
  deriving DecidableEq

/-- `ValidatedImage` (media.rs:19-23), field for field: the decoded image and
the sniffed format. These are the only two fields the struct declares. -/
structure ValidatedImage where
  image : Img
  format : ImageFormat
  deriving DecidableEq

/-- `validate_image_file` (media.rs:27-51), abstracted over the three
external collaborators: `mime_from_ext` is `MimeGuess::from_ext(..).first()`
reported by its essence string, `guess_format` is `image::guess_format`, and
`load_image` is `image::load_from_memory_with_format`; `fileExt` is
`Path::extension()` of the input filename. The control flow follows the
source: missing extension, unknown MIME, MIME outside the allow-list, a
sniffed format that is absent or differs from the extension-implied type,
and decoder failure each fail with their own error; otherwise the decoded
image and the sniffed format are returned. -/
def validate_image_file (mime_from_ext : String → Option String)
    (guess_format : List Nat → Option ImageFormat)
    (load_image : List Nat → ImageFormat → Option Img)
    (fileExt : Option String) (data : List Nat) :
    Except ValidateError ValidatedImage :=
  match fileExt with
  | none => .error .noFileExt
  | some ext =>
    match mime_from_ext ext with
    | none => .error .noMime
    | some mime =>
      match ALLOWED_TYPES.find? (fun ty => ty.1 == mime) with
      | none => .error .unsupportedFileType
      | some ty =>
        match guess_format data with
        | some f =>
          if f = ty.2 then
            match load_image data f with
            | some image => .ok { image := image, format := f }
            | none => .error .loadFailed
          else .error .unsupportedImageType
        | none => .error .unsupportedImageType

/-- A side effect of the upload/delete endpoints on the stores: a record
INSERT attempt, a `save_image` call, a `fs::remove_file` call, or the record
DELETE. -/
inductive Effect where
  | insertAttempt (length : Nat)
  | saveImage (path : String)
  | removeFile (path : String)
  | removeRecord (hash_id : String)
  deriving DecidableEq

/-- The failure channel of the `upload` endpoint after multipart parsing:
a validation failure (flash + redirect at media.rs:205-210) or a propagated
allocation failure (`reserve_media_record(..).await?` at media.rs:213). -/
inductive UploadError where
  | invalidImage (e : ValidateError)
  | reserveFailed (e : ReserveError)
  deriving DecidableEq

/-- The core of the `upload` endpoint (media.rs:203-228), from validation
onward: validate, derive the thumbnail, reserve the record (the pair
`reserve` carries the allocation outcome together with the store effects the
allocation performed), then write the thumbnail artifact (if any) to
`thumbnails/{id}.jpg` and the original to `{id}.{extension}`. A validation
failure returns before the allocator or any artifact write runs, so its
effect trace is empty. -/
def upload_core (mime_from_ext : String → Option String)
    (guess_format : List Nat → Option ImageFormat)
    (load_image : List Nat → ImageFormat → Option Img)
    (reserve : Except ReserveError Media × List Effect)
    (fileExt : Option String) (data : List Nat) :
    Except UploadError Media × List Effect :=
  match validate_image_file mime_from_ext guess_format load_image fileExt data with
  | .error e => (.error (.invalidImage e), [])
  | .ok validated_image =>
    let thumbnail := create_thumbnail validated_image.image
    match reserve with
    | (.error e, tr) => (.error (.reserveFailed e), tr)
    | (.ok record, tr) =>
      let filename := record.hash_id ++ "." ++ record.extension
      let thumb_filename := "thumbnails/" ++ record.hash_id ++ ".jpg"
      match thumbnail with
      | some _ => (.ok record, tr ++ [.saveImage thumb_filename, .saveImage filename])
      | none => (.ok record, tr ++ [.saveImage filename])

/-- Claim C4: whenever the file extension resolves to an allow-listed type
`ty` but the sniffed binary format `f` differs from it, validation fails with
the mismatch error (`bail!("Unsupported image type")`), and the upload core
performs no store insert and no artifact write: its effect trace is empty. -/
theorem upload_type_mismatch_spec (mime_from_ext : String → Option String)
    (guess_format : List Nat → Option ImageFormat)
    (load_image : List Nat → ImageFormat → Option Img)
    (reserve : Except ReserveError Media × List Effect)
    (ext : String) (data : List Nat) (mime : String)
    (ty : String × ImageFormat) (f : ImageFormat)
    (hmime : mime_from_ext ext = some mime)
    (hallowed : ALLOWED_TYPES.find? (fun p => p.1 == mime) = some ty)
    (hguess : guess_format data = some f)
    (hne : f ≠ ty.2) :
    validate_image_file mime_from_ext guess_format load_image (some ext) data =
      .error .unsupportedImageType ∧
    upload_core mime_from_ext guess_format load_image reserve (some ext) data =
      (.error (.invalidImage .unsupportedImageType), []) := by
  have hval : validate_image_file mime_from_ext guess_format load_image
      (some ext) data = .error .unsupportedImageType := by
    simp only [validate_image_file, hmime, hallowed, hguess, hne, if_false]
  exact ⟨hval, by simp only [upload_core, hval]⟩

/-- Witness for C4: a buffer whose sniffed format is GIF uploaded under a
`.png` name fails validation with the mismatch error and produces no effects,
even though the allocator stands ready to succeed. -/
theorem upload_type_mismatch_spec_witness :
    validate_image_file
      (fun e => if e == "png" then some "image/png" else none)
      (fun _ => some ImageFormat.gif)
      (fun _ _ => some { width := 10, height := 20 })
      (some "png") [71, 73, 70, 56] = .error .unsupportedImageType ∧
    upload_core
      (fun e => if e == "png" then some "image/png" else none)
      (fun _ => some ImageFormat.gif)
      (fun _ _ => some { width := 10, height := 20 })
      (.ok mediaA, [.insertAttempt 6])
      (some "png") [71, 73, 70, 56] =
      (.error (.invalidImage .unsupportedImageType), []) :=
  upload_type_mismatch_spec
    (fun e => if e == "png" then some "image/png" else none)
    (fun _ => some ImageFormat.gif)
    (fun _ _ => some { width := 10, height := 20 })
    (.ok mediaA, [.insertAttempt 6])
    "png" [71, 73, 70, 56] "image/png" ("image/png", ImageFormat.png)
    ImageFormat.gif rfl rfl rfl (by decide)

/-- Claim C7, evaluated: on a successful validation the validator returns
exactly the two-field structure `{ image, format }` — the decoded image and
the canonical format tag. The decoded width and height are carried inside
`image` (the caller reads them via `dimensions()`, database.rs:52), but no
byte-length field exists on `ValidatedImage` (media.rs:19-23), even though
`reserve_media_record` reads `validated_image.filesize` (database.rs:83). -/
theorem validate_image_file_returns_image_and_format :
    validate_image_file
      (fun e => if e == "png" then some "image/png" else none)
      (fun _ => some ImageFormat.png)
      (fun _ _ => some { width := 10, height := 20 })
      (some "png") [137, 80, 78, 71] =
      .ok { image := { width := 10, height := 20 }, format := ImageFormat.png } := by
  rfl

/-- The ordering used by `ORDER BY uploaded DESC` (database.rs:36-38):
`a` precedes `b` when `b.uploaded ≤ a.uploaded`. -/
def uploadedDesc (a b : Media) : Prop := b.uploaded ≤ a.uploaded

instance : DecidableRel uploadedDesc := fun a b => Int.decLe b.uploaded a.uploaded

instance : IsTotal Media uploadedDesc := ⟨fun a b => le_total b.uploaded a.uploaded⟩

instance : IsTrans Media uploadedDesc := ⟨fun _ _ _ h1 h2 => le_trans h2 h1⟩

/-- `fetch_media_list` (database.rs:34-43): the SQL
`SELECT * FROM media [WHERE uploaded < $1] AND is_private = FALSE
ORDER BY uploaded DESC LIMIT $2` over a table modelled as a list of rows:
keep the rows passing the WHERE clause, order them descending by `uploaded`
(ties in an unspecified relative order, here the one insertion sort picks),
and take the first `limit`. -/
def fetch_media_list (table : List Media) (latest : Option Int) (limit : Nat) :
    List Media :=
  (List.insertionSort uploadedDesc (table.filter fun m =>
    (match latest with
     | some t => decide (m.uploaded < t)
     | none => true) && (m.is_private == false))).take limit

/-- Rows returned by the list query come from the table, are public, and are
strictly older than the cursor when one is supplied. -/
theorem mem_fetch_media_list (table : List Media) (latest : Option Int)
    (limit : Nat) (m : Media) (hm : m ∈ fetch_media_list table latest limit) :
    m ∈ table ∧ m.is_private = false ∧
      ∀ t, latest = some t → m.uploaded < t := by
  rw [fetch_media_list] at hm
  have h1 := (List.take_sublist _ _).subset hm
  have h2 := (List.perm_insertionSort uploadedDesc _).subset h1
  rcases List.mem_filter.mp h2 with ⟨hmem, hpred⟩
  simp only [Bool.and_eq_true] at hpred
  rcases hpred with ⟨hcur, hpriv⟩
  refine ⟨hmem, by simpa using hpriv, ?_⟩
  intro t ht
  subst ht
  simpa using hcur

/-- A non-strictly descending chain with pairwise distinct keys is strictly
descending. -/
theorem pairwise_strict_of_desc_ne (l : List Media)
    (h1 : l.Pairwise uploadedDesc)
    (h2 : l.Pairwise fun a b => a.uploaded ≠ b.uploaded) :
    l.Pairwise fun a b => b.uploaded < a.uploaded := by
  induction l with
  | nil => exact List.Pairwise.nil
  | cons x xs ih =>
    rcases List.pairwise_cons.mp h1 with ⟨hx1, ht1⟩
    rcases List.pairwise_cons.mp h2 with ⟨hx2, ht2⟩
    exact List.pairwise_cons.mpr
      ⟨fun y hy => lt_of_le_of_ne (hx1 y hy) (Ne.symm (hx2 y hy)), ih ht1 ht2⟩

/-- Claim C6 (amended): the list query returns at most `limit` rows, ordered
by `uploaded` descending (non-strictly: ties can be adjacent; the order is
strict whenever the returned timestamps are pairwise distinct); with a cursor
only rows strictly older than the cursor are returned; and every private row
is filtered out — for every caller, in particular for unauthenticated ones. -/
theorem fetch_media_list_spec (table : List Media) (latest : Option Int)
    (limit : Nat) :
    (fetch_media_list table latest limit).length ≤ limit ∧
    (fetch_media_list table latest limit).Pairwise
      (fun a b => b.uploaded ≤ a.uploaded) ∧
    (∀ t, latest = some t →
      ∀ m ∈ fetch_media_list table latest limit, m.uploaded < t) ∧
    (∀ m ∈ fetch_media_list table latest limit, m.is_private = false) ∧
    (∀ m ∈ fetch_media_list table latest limit, m ∈ table) ∧
    ((fetch_media_list table latest limit).Pairwise
        (fun a b => a.uploaded ≠ b.uploaded) →
      (fetch_media_list table latest limit).Pairwise
        (fun a b => b.uploaded < a.uploaded)) := by
  have hsorted : (fetch_media_list table latest limit).Pairwise uploadedDesc := by
    have hs := List.sorted_insertionSort uploadedDesc (table.filter fun m =>
      (match latest with
       | some t => decide (m.uploaded < t)
       | none => true) && (m.is_private == false))
    exact hs.sublist (List.take_sublist _ _)
  refine ⟨List.length_take_le _ _, hsorted, ?_, ?_, ?_, ?_⟩
  · intro t ht m hm
    exact (mem_fetch_media_list table latest limit m hm).2.2 t ht
  · intro m hm
    exact (mem_fetch_media_list table latest limit m hm).2.1
  · intro m hm
    exact (mem_fetch_media_list table latest limit m hm).1
  · intro hne
    exact pairwise_strict_of_desc_ne _ hsorted hne

/-- A second public row sharing the `uploaded` timestamp of `mediaA`. -/
def mediaB : Media :=
  { hash_id := "b4c5d6", extension := "gif", has_thumbnail := false,
    is_private := false, width := 32, height := 32, filesize := 64,
    comment := none, uploaded := 5 }

/-- Counterexample for C6 as stated: two public rows with equal `uploaded`
timestamps are both returned, and the result is not strictly ordered by
`uploaded` descending — `ORDER BY uploaded DESC` is non-strict under ties. -/
theorem fetch_media_list_ties_counterexample :
    (fetch_media_list [mediaA, mediaB] none 50).length = 2 ∧
    ¬ (fetch_media_list [mediaA, mediaB] none 50).Pairwise
        (fun a b => b.uploaded < a.uploaded) := by decide

/-- Witness for C6 (amended) on a concrete two-row table with cursor 7 and
limit 1: both rows (timestamp 5) are older than the cursor, one is returned. -/
theorem fetch_media_list_spec_witness :
    (fetch_media_list [mediaA, mediaB] (some 7) 1).length ≤ 1 ∧
    (∀ m ∈ fetch_media_list [mediaA, mediaB] (some 7) 1, m.uploaded < 7) ∧
    (∀ m ∈ fetch_media_list [mediaA, mediaB] (some 7) 1, m.is_private = false) := by
  have h := fetch_media_list_spec [mediaA, mediaB] (some 7) 1
  exact ⟨h.1, fun m hm => h.2.2.1 7 rfl m hm, fun m hm => h.2.2.2.1 m hm⟩

/-- `fetch_media` (database.rs:24-31):
`SELECT * FROM media WHERE hash_id = $1` with `fetch_optional`. -/
def fetch_media (table : List Media) (hash_id : String) : Option Media :=
  table.find? fun m => m.hash_id == hash_id

/-- The row update applied by the SQL in `update_media_record`
(database.rs:100-107): `SET is_private = $1, comment = $2`. -/
def apply_update (m : Media) (priv : Bool) (comment : String) : Media :=
  { m with is_private := priv, comment := some comment }

/-- `fetch_one` on an UPDATE matching no row fails with sqlx `RowNotFound`. -/
inductive UpdateError where
  | rowNotFound
  deriving DecidableEq

/-- `update_media_record` (database.rs:99-114):
`UPDATE media SET is_private = $1, comment = $2 WHERE hash_id = $3
RETURNING *` with `fetch_one`: if a row with the id exists, every matching
row is updated in place and the updated row is returned; otherwise the call
fails with `RowNotFound`. -/
def update_media_record (table : List Media) (hash_id : String) (priv : Bool)
    (comment : String) : Except UpdateError (Media × List Media) :=
  match table.find? (fun m => m.hash_id == hash_id) with
  | some m =>
    .ok (apply_update m priv comment,
      table.map fun r => if r.hash_id == hash_id then apply_update r priv comment else r)
  | none => .error .rowNotFound

/-- Outcome of the `update` endpoint. -/
inductive UpdateOutcome where
  | ok (m : Media)
  | notFound
  | dbFailed
  deriving DecidableEq

/-- The `update` endpoint (media.rs:85-119): fetch the record by id; if it is
absent flash "not found" and redirect; otherwise run `update_media_record`
with the id of the fetched record. The endpoint performs no filesystem operation,
so its effect trace is always empty. -/
def update_endpoint (table : List Media) (hash_id : String) (priv : Bool)
    (comment : String) : UpdateOutcome × List Media × List Effect :=
  match fetch_media table hash_id with
  | none => (.notFound, table, [])
  | some m =>
    match update_media_record table m.hash_id priv comment with
    | .ok (record, table2) => (.ok record, table2, [])
    | .error _ => (.dbFailed, table, [])

/-- Claim C8: the row update touches only `comment` and `is_private` — the
other seven fields are unchanged; updating an existing id rewrites exactly
the matching rows of the table and produces no artifact effect; updating an
absent id answers not-found (and changes nothing). -/
theorem update_media_spec (table : List Media) (hash_id : String)
    (priv : Bool) (comment : String) :
    (∀ r : Media,
      (apply_update r priv comment).hash_id = r.hash_id ∧
      (apply_update r priv comment).extension = r.extension ∧
      (apply_update r priv comment).has_thumbnail = r.has_thumbnail ∧
      (apply_update r priv comment).width = r.width ∧
      (apply_update r priv comment).height = r.height ∧
      (apply_update r priv comment).filesize = r.filesize ∧
      (apply_update r priv comment).uploaded = r.uploaded ∧
      (apply_update r priv comment).is_private = priv ∧
      (apply_update r priv comment).comment = some comment) ∧
    (fetch_media table hash_id = none →
      update_endpoint table hash_id priv comment = (.notFound, table, [])) ∧
    (∀ m, fetch_media table hash_id = some m →
      update_endpoint table hash_id priv comment =
        (.ok (apply_update m priv comment),
         table.map (fun r =>
           if r.hash_id == hash_id then apply_update r priv comment else r),
         [])) := by
  refine ⟨fun r => by simp [apply_update], ?_, ?_⟩
  · intro h
    simp only [update_endpoint, h]
  · intro m hm
    have hfind : table.find? (fun r => r.hash_id == hash_id) = some m := by
      simpa [fetch_media] using hm
    have heq : m.hash_id = hash_id := by
      have hp := List.find?_some hfind
      exact eq_of_beq hp
    simp only [update_endpoint, fetch_media, hfind, heq, update_media_record]

/-- Witness for C8: updating `mediaA` in a one-row table flips only comment
and privacy; updating an id absent from the table answers not-found. -/
theorem update_media_spec_witness :
    update_endpoint [mediaA] "a1b2c3" true "hello" =
      (.ok (apply_update mediaA true "hello"),
       [apply_update mediaA true "hello"], []) ∧
    update_endpoint [mediaA] "zzzzzz" true "hello" =
      (.notFound, [mediaA], []) := by
  constructor
  · have h := (update_media_spec [mediaA] "a1b2c3" true "hello").2.2 mediaA rfl
    rw [h]
    rfl
  · exact (update_media_spec [mediaA] "zzzzzz" true "hello").2.1 rfl

/-- `remove_media_record` (database.rs:117-124):
`DELETE FROM media WHERE hash_id = $1` via `execute`, which reports how many
rows were affected but never fails on zero matches; the function discards
that count and returns `Ok(())` (connection-level failures aside). -/
def remove_media_record (table : List Media) (hash_id : String) :
    Except SqlxError Unit × List Media :=
  (.ok (), table.filter fun m => !(m.hash_id == hash_id))

/-- Outcome of the `delete` endpoint. -/
inductive DeleteOutcome where
  | notFound
  | ioFailed (path : String)
  | ok
  deriving DecidableEq

/-- The `delete` endpoint (media.rs:123-153): fetch the record (not-found if
absent), then `fs::remove_file` the original `{id}.{extension}`, then — only
when `has_thumbnail` — `fs::remove_file` the thumbnail
`thumbnails/{id}.jpg`, then delete the database row, each subsequent step
running only if the previous one succeeded. `remove_file_ok` gives the
response of the filesystem per path; the trace records the operations attempted,
in order. -/
def delete_endpoint (table : List Media) (hash_id : String)
    (remove_file_ok : String → Bool) :
    DeleteOutcome × List Effect × List Media :=
  match fetch_media table hash_id with
  | none => (.notFound, [], table)
  | some m =>
    let filename := m.hash_id ++ "." ++ m.extension
    if remove_file_ok filename then
      if m.has_thumbnail then
        let thumb := "thumbnails/" ++ m.hash_id ++ ".jpg"
        if remove_file_ok thumb then
          (.ok, [.removeFile filename, .removeFile thumb, .removeRecord m.hash_id],
           (remove_media_record table m.hash_id).2)
        else (.ioFailed thumb, [.removeFile filename, .removeFile thumb], table)
      else
        (.ok, [.removeFile filename, .removeRecord m.hash_id],
         (remove_media_record table m.hash_id).2)
    else (.ioFailed filename, [.removeFile filename], table)

/-- Claim C5: on an existing record, delete removes the original artifact
first, then (exactly when `has_thumbnail`) the thumbnail artifact, then the
record row, in that order; and under any filesystem behaviour, whenever the
row removal appears in the trace at all, the trace is that full sequence, so
the row removal never precedes either artifact removal. -/
theorem delete_order_spec (table : List Media) (hash_id : String) (m : Media)
    (remove_file_ok : String → Bool)
    (hfetch : fetch_media table hash_id = some m) :
    (remove_file_ok (m.hash_id ++ "." ++ m.extension) = true →
      (m.has_thumbnail = true →
        remove_file_ok ("thumbnails/" ++ m.hash_id ++ ".jpg") = true) →
      (delete_endpoint table hash_id remove_file_ok).2.1 =
        [Effect.removeFile (m.hash_id ++ "." ++ m.extension)] ++
        (if m.has_thumbnail then
          [Effect.removeFile ("thumbnails/" ++ m.hash_id ++ ".jpg")] else []) ++
        [Effect.removeRecord m.hash_id]) ∧
    (∀ hid, Effect.removeRecord hid ∈
        (delete_endpoint table hash_id remove_file_ok).2.1 →
      (delete_endpoint table hash_id remove_file_ok).2.1 =
        [Effect.removeFile (m.hash_id ++ "." ++ m.extension)] ++
        (if m.has_thumbnail then
          [Effect.removeFile ("thumbnails/" ++ m.hash_id ++ ".jpg")] else []) ++
        [Effect.removeRecord m.hash_id]) := by
  simp only [delete_endpoint, hfetch]
  by_cases h1 : remove_file_ok (m.hash_id ++ "." ++ m.extension) = true
  · simp only [h1, if_true]
    by_cases h2 : m.has_thumbnail = true
    · simp only [h2, if_true]
      by_cases h3 : remove_file_ok ("thumbnails/" ++ m.hash_id ++ ".jpg") = true
      · simp only [h3, if_true]
        exact ⟨fun _ _ => rfl, fun _ _ => rfl⟩
      · simp only [eq_false_of_ne_true h3, Bool.false_eq_true, if_false]
        refine ⟨fun _ hf => (hf trivial).elim, ?_⟩
        intro hid hmem
        simp at hmem
    · simp only [eq_false_of_ne_true h2, Bool.false_eq_true, if_false]
      exact ⟨fun _ _ => rfl, fun _ _ => rfl⟩
  · simp only [eq_false_of_ne_true h1, Bool.false_eq_true, if_false]
    refine ⟨fun hf => hf.elim, ?_⟩
    intro hid hmem
    simp at hmem

/-- Witness for C5: deleting `mediaA` (which has a thumbnail) from a one-row
table with a filesystem that accepts every removal produces exactly
[remove original, remove thumbnail, remove row]. -/
theorem delete_order_spec_witness :
    (delete_endpoint [mediaA] "a1b2c3" (fun _ => true)).2.1 =
      [Effect.removeFile (mediaA.hash_id ++ "." ++ mediaA.extension)] ++
      (if mediaA.has_thumbnail then
        [Effect.removeFile ("thumbnails/" ++ mediaA.hash_id ++ ".jpg")] else []) ++
      [Effect.removeRecord mediaA.hash_id] :=
  (delete_order_spec [mediaA] "a1b2c3" mediaA (fun _ => true) rfl).1 rfl (fun _ => rfl)

/-- Counterexample for C9 as stated: at the RecordStore interface,
`remove_media_record` returns `Ok(())` on a table that contains no row with
the requested id — exactly the same outcome as deleting an existing row —
so the store-level delete does not distinguish the no-row case and cannot
return NotFound. -/
theorem remove_media_record_silent_on_missing_counterexample :
    fetch_media ([] : List Media) "a1b2c3" = none ∧
    (remove_media_record ([] : List Media) "a1b2c3").1 = .ok () ∧
    (remove_media_record [mediaA] "a1b2c3").1 = .ok () :=
  ⟨rfl, rfl, rfl⟩

/-- Claim C9 (amended): delete of an id that does not exist answers an
explicit not-found outcome at the endpoint, because the endpoint fetches the
record before removing anything (and performs no removal in that case); the
store-level `remove_media_record`, however, returns `Ok` whether or not a
row with the id existed. -/
theorem delete_missing_spec (table : List Media) (hash_id : String)
    (remove_file_ok : String → Bool)
    (habs : fetch_media table hash_id = none) :
    delete_endpoint table hash_id remove_file_ok = (.notFound, [], table) ∧
    (remove_media_record table hash_id).1 = .ok () :=
  ⟨by simp only [delete_endpoint, habs], rfl⟩

/-- Witness for C9 (amended): deleting an id absent from a one-row table
answers not-found with no effects. -/
theorem delete_missing_spec_witness :
    delete_endpoint [mediaA] "zzzzzz" (fun _ => true) =
      (.notFound, [], [mediaA]) ∧
    (remove_media_record [mediaA] "zzzzzz").1 = .ok () :=
  delete_missing_spec [mediaA] "zzzzzz" (fun _ => true) rfl

end Kebisafe
